import Mathlib

/-! # kubelogin: grant-option resolution, listen-address resolution and OIDC state/nonce tokens

A shallow embedding of

* `pkg/adaptors/cmd/authentication.go` (`authenticationOptions`,
  `determineListenAddress`, `allGrantType`, `grantOptionSet`), and
* `pkg/oidc/oidc.go` (`NewState`, `NewNonce`, `random32`, `base64URLEncode`),

followed by theorems about these definitions.

Conventions of the embedding:

* a Go slice is a `List` (a nil slice and an empty slice are both `[]`);
* a Go pointer field that may be nil is an `Option`;
* a Go `error` is `Option error`, where `none` is the nil error and the carried
  string is the message;
* a Go function returning `(value, error)` returns a pair, so that the value
  returned next to a non-nil error stays observable;
* a Go `int` is an `Int`, a Go `byte` is a `Fin 256`.
-/

/-- The Go `error` interface, represented by its message. -/
abbrev error := String

/-- A Go `byte`. -/
abbrev Byte := Fin 256

/-! ## Standard-library functions used by the sources -/

namespace fmt

/-- The verb `%d` of `fmt.Sprintf` applied to an `int`: the decimal digits,
preceded by a minus sign for a negative number. -/
def formatInt : Int → String
  | Int.ofNat n => Nat.repr n
  | Int.negSucc n => "-" ++ Nat.repr (n + 1)

end fmt

namespace strings

/-- Go `strings.Join(elems, sep)`. -/
def Join (elems : List String) (sep : String) : String :=
  match elems with
  | [] => ""
  | e :: rest => rest.foldl (fun acc s => acc ++ sep ++ s) e

end strings

namespace xerrors

/-- The call `xerrors.Errorf(format, arg)` for a format `prefix%ssuffix`
with one string argument, or `prefix%w` wrapping an error (empty suffix). -/
def Errorf (pre : String) (arg : String) (suf : String) : error :=
  pre ++ arg ++ suf

end xerrors

/-! ## Package `authentication` (types consumed by `grantOptionSet`) -/

namespace authentication

/-- Modelled from the spec: the declaration of `authentication.AuthCodeOption`
(package `pkg/usecases/authentication`) is not among the sources; the fields
are those of the composite literal in `grantOptionSet` and of the spec's data
model: candidate bind addresses, skip-browser flag, redirect hostname, extra
request parameters. -/
structure AuthCodeOption where
  BindAddress : List String
  SkipOpenBrowser : Bool
  RedirectURLHostname : String
  AuthRequestExtraParams : List (String × String)
  deriving DecidableEq, Repr

/-- Modelled from the spec: the declaration of
`authentication.AuthCodeKeyboardOption` is not among the sources; the spec's
data model gives it the extra request parameters only. -/
structure AuthCodeKeyboardOption where
  AuthRequestExtraParams : List (String × String)
  deriving DecidableEq, Repr

/-- Modelled from the spec: the declaration of `authentication.ROPCOption` is
not among the sources; the spec's data model and the composite literal in
`grantOptionSet` give it a username and a password. -/
structure ROPCOption where
  Username : String
  Password : String
  deriving DecidableEq, Repr

/-- Modelled from the spec: the declaration of `authentication.GrantOptionSet`
is not among the sources; it holds one pointer per variant, nil when the
variant is not populated. -/
structure GrantOptionSet where
  AuthCodeOption : Option AuthCodeOption
  AuthCodeKeyboardOption : Option AuthCodeKeyboardOption
  ROPCOption : Option ROPCOption
  deriving DecidableEq, Repr

/-- The zero value of `GrantOptionSet`: all three pointers nil. -/
def GrantOptionSet.zero : GrantOptionSet :=
  { AuthCodeOption := none, AuthCodeKeyboardOption := none, ROPCOption := none }

/-- Number of populated (non-nil) variants of a `GrantOptionSet`. -/
def GrantOptionSet.populated (s : GrantOptionSet) : Nat :=
  (if s.AuthCodeOption.isSome then 1 else 0)
    + (if s.AuthCodeKeyboardOption.isSome then 1 else 0)
    + (if s.ROPCOption.isSome then 1 else 0)

end authentication

/-! ## Package `cmd`: `authentication.go` -/

namespace cmd

/-- The struct `authenticationOptions`. The map `AuthRequestExtraParams` is
only handed on by the code, never inspected; it is kept as an association
list (a nil map is `[]`). -/
structure authenticationOptions where
  GrantType : String
  ListenAddress : List String
  ListenPort : List Int
  SkipOpenBrowser : Bool
  RedirectURLHostname : String
  AuthRequestExtraParams : List (String × String)
  Username : String
  Password : String
  deriving DecidableEq, Repr

/-- The method `determineListenAddress`: the addresses of `--listen-address`
when no `--listen-port` is given, otherwise one loopback address per port,
appended in a loop to an initially nil slice. -/
def determineListenAddress (o : authenticationOptions) : List String :=
  if o.ListenPort.length = 0 then
    o.ListenAddress
  else
    o.ListenPort.foldl (fun a p => a ++ ["127.0.0.1:" ++ fmt.formatInt p]) []

/-- The package variable `allGrantType`. -/
def allGrantType : String :=
  strings.Join ["auto", "authcode", "authcode-keyboard", "password"] "|"

/-- The method `grantOptionSet`, with its named results `(s, err)`: both start
at their zero value and the `switch` assigns one of them. -/
def grantOptionSet (o : authenticationOptions) :
    authentication.GrantOptionSet × Option error :=
  let s := authentication.GrantOptionSet.zero
  if o.GrantType = "authcode" ∨ (o.GrantType = "auto" ∧ o.Username = "") then
    ({ s with
        AuthCodeOption := some (
          { BindAddress := determineListenAddress o,
            SkipOpenBrowser := o.SkipOpenBrowser,
            RedirectURLHostname := o.RedirectURLHostname,
            AuthRequestExtraParams := o.AuthRequestExtraParams }) }, none)
  else if o.GrantType = "authcode-keyboard" then
    ({ s with
        AuthCodeKeyboardOption := some (
          { AuthRequestExtraParams := o.AuthRequestExtraParams }) }, none)
  else if o.GrantType = "password" ∨ (o.GrantType = "auto" ∧ o.Username ≠ "") then
    ({ s with
        ROPCOption := some (
          { Username := o.Username,
            Password := o.Password }) }, none)
  else
    (s, some (xerrors.Errorf "grant-type must be one of (" allGrantType ")"))

end cmd

/-! ## Standard library: `encoding/base64` -/

namespace base64

/-- The alphabet constant `encodeURL` of `encoding/base64`. -/
def encodeURL : String :=
  "ABCDEFGHIJKLMNOPQRSTUVWXYZabcdefghijklmnopqrstuvwxyz0123456789-_"

/-- The padding constant `StdPadding`. -/
def StdPadding : Option Char := some '='

/-- The padding constant `NoPadding`. -/
def NoPadding : Option Char := none

/-- The struct `Encoding`: the 64-entry table `encode` and the padding
character `padChar` (`none` for `NoPadding`). -/
structure Encoding where
  encode : List Char
  padChar : Option Char

/-- The constructor `NewEncoding`: the given alphabet with standard padding. -/
def NewEncoding (encoder : String) : Encoding :=
  { encode := encoder.data, padChar := StdPadding }

/-- The package variable `URLEncoding`. -/
def URLEncoding : Encoding := NewEncoding encodeURL

/-- The method `WithPadding`: the same encoding with another padding character. -/
def Encoding.WithPadding (enc : Encoding) (padding : Option Char) : Encoding :=
  { enc with padChar := padding }

/-- The table lookup `enc.encode[i]`. The index is always masked with `0x3F`
by the callers; outside the table the NUL character is returned. -/
def Encoding.tbl (enc : Encoding) (i : Nat) : Char :=
  enc.encode.getD i (Char.ofNat 0)

/-- The method `Encode`: every full group of three bytes gives four characters;
a remainder of two bytes gives three characters, a remainder of one byte gives
two, each followed by padding up to four when the encoding pads. -/
def Encoding.Encode (enc : Encoding) : List Byte → List Char
  | a :: b :: c :: rest =>
    let val := (a.val <<< 16) ||| (b.val <<< 8) ||| c.val
    enc.tbl ((val >>> 18) &&& 0x3F) :: enc.tbl ((val >>> 12) &&& 0x3F)
      :: enc.tbl ((val >>> 6) &&& 0x3F) :: enc.tbl (val &&& 0x3F)
      :: Encoding.Encode enc rest
  | [a, b] =>
    let val := (a.val <<< 16) ||| (b.val <<< 8)
    [enc.tbl ((val >>> 18) &&& 0x3F), enc.tbl ((val >>> 12) &&& 0x3F),
      enc.tbl ((val >>> 6) &&& 0x3F)]
      ++ (match enc.padChar with
          | some p => [p]
          | none => [])
  | [a] =>
    let val := a.val <<< 16
    [enc.tbl ((val >>> 18) &&& 0x3F), enc.tbl ((val >>> 12) &&& 0x3F)]
      ++ (match enc.padChar with
          | some p => [p, p]
          | none => [])
  | [] => []

/-- The method `EncodedLen`: the length of the encoding of `n` bytes. -/
def Encoding.EncodedLen (enc : Encoding) (n : Nat) : Nat :=
  match enc.padChar with
  | none => (n * 8 + 5) / 6
  | some _ => (n + 2) / 3 * 4

/-- The method `EncodeToString`. -/
def Encoding.EncodeToString (enc : Encoding) (src : List Byte) : String :=
  String.mk (enc.Encode src)

end base64

/-! ## Package `oidc`: `oidc.go` -/

namespace oidc

/-- The random source `rand.Reader` as seen by `binary.Read` into a byte slice
of length `n`: the read of `n` bytes either fails with an error or delivers the
bytes. -/
structure Reader where
  readFull : Nat → Except error (List Byte)

/-- The function `random32`: a buffer of 32 bytes filled from the random
source, or `(nil, err)` with the wrapped read error. -/
def random32 (rd : Reader) : List Byte × Option error :=
  match rd.readFull 32 with
  | Except.error err => ([], some (xerrors.Errorf "read error: " err ""))
  | Except.ok b => (b, none)

/-- The function `base64URLEncode`. -/
def base64URLEncode (b : List Byte) : String :=
  (base64.URLEncoding.WithPadding base64.NoPadding).EncodeToString b

/-- The function `NewState`. -/
def NewState (rd : Reader) : String × Option error :=
  match random32 rd with
  | (_, some err) => ("", some (xerrors.Errorf "could not generate a random: " err ""))
  | (b, none) => (base64URLEncode b, none)

/-- The function `NewNonce`. -/
def NewNonce (rd : Reader) : String × Option error :=
  match random32 rd with
  | (_, some err) => ("", some (xerrors.Errorf "could not generate a random: " err ""))
  | (b, none) => (base64URLEncode b, none)

end oidc

/-! ## Vocabulary of the statements -/

namespace base64

/-- The URL-safe base64 alphabet: the letters `A-Z` and `a-z`, the digits
`0-9`, the hyphen and the underscore. -/
def isURLSafeChar (c : Char) : Bool :=
  c.isUpper || c.isLower || c.isDigit || c == '-' || c == '_'

end base64

/-! ## Auxiliary lemmas -/

namespace base64

/-- The URL-safe encoding without padding, as built by `base64URLEncode`. -/
theorem rawURL_eq :
    URLEncoding.WithPadding NoPadding = { encode := encodeURL.data, padChar := none } := rfl

/-- Every entry of the URL-safe table is a character of the URL-safe alphabet. -/
theorem tbl_isURLSafeChar (i : Nat) (hi : i < 64) :
    isURLSafeChar ((URLEncoding.WithPadding NoPadding).tbl i) = true := by
  have h : ∀ j : Fin 64, isURLSafeChar ((URLEncoding.WithPadding NoPadding).tbl j.val) = true := by
    decide
  exact h ⟨i, hi⟩

/-- A value masked with `0x3F` is an index into the 64-entry table. -/
theorem and_0x3F_lt (x : Nat) : (x &&& 0x3F) < 64 :=
  Nat.and_lt_two_pow x (by norm_num : 0x3F < 2 ^ 6)

/-- Every character written by `Encode` for the unpadded URL-safe encoding is
in the URL-safe alphabet. -/
theorem Encode_isURLSafeChar (n : Nat) :
    ∀ src : List Byte, src.length ≤ n →
      ∀ c ∈ (URLEncoding.WithPadding NoPadding).Encode src, isURLSafeChar c = true := by
  induction n using Nat.strong_induction_on with
  | _ n ih =>
    intro src hlen c hc
    match src, hlen, hc with
    | [], _, hc => simp [Encoding.Encode] at hc
    | [a], _, hc =>
      simp only [Encoding.Encode, rawURL_eq, List.append_nil, List.mem_cons,
        List.mem_singleton, List.not_mem_nil, or_false] at hc
      rcases hc with h | h <;> subst h <;> exact tbl_isURLSafeChar _ (and_0x3F_lt _)
    | [a, b], _, hc =>
      simp only [Encoding.Encode, rawURL_eq, List.append_nil, List.mem_cons,
        List.mem_singleton, List.not_mem_nil, or_false] at hc
      rcases hc with h | h | h <;> subst h <;> exact tbl_isURLSafeChar _ (and_0x3F_lt _)
    | a :: b :: c3 :: rest, hlen, hc =>
      simp only [Encoding.Encode, List.mem_cons] at hc
      rcases hc with h | h | h | h | h
      · subst h; exact tbl_isURLSafeChar _ (and_0x3F_lt _)
      · subst h; exact tbl_isURLSafeChar _ (and_0x3F_lt _)
      · subst h; exact tbl_isURLSafeChar _ (and_0x3F_lt _)
      · subst h; exact tbl_isURLSafeChar _ (and_0x3F_lt _)
      · have hl : rest.length < n := by
          simp only [List.length_cons] at hlen
          omega
        exact ih rest.length hl rest (le_refl _) c h

/-- The number of characters written by `Encode` for an encoding without
padding is `EncodedLen` of the number of bytes. -/
theorem Encode_length (enc : Encoding) (hp : enc.padChar = none) (n : Nat) :
    ∀ src : List Byte, src.length ≤ n →
      (enc.Encode src).length = enc.EncodedLen src.length := by
  induction n using Nat.strong_induction_on with
  | _ n ih =>
    intro src hlen
    match src, hlen with
    | [], _ => simp [Encoding.Encode, Encoding.EncodedLen, hp]
    | [a], _ => simp [Encoding.Encode, Encoding.EncodedLen, hp]
    | [a, b], _ => simp [Encoding.Encode, Encoding.EncodedLen, hp]
    | a :: b :: c3 :: rest, hlen =>
      have hl : rest.length < n := by
        simp only [List.length_cons] at hlen
        omega
      have hrec := ih rest.length hl rest (le_refl _)
      simp only [Encoding.Encode, List.length_cons, hrec]
      simp only [Encoding.EncodedLen, hp]
      omega

end base64

namespace cmd

/-- The appending loop of `determineListenAddress` builds the image of the
ports under the formatting function, after the accumulator. -/
theorem foldl_append_singleton {α β : Type} (f : α → β) (l : List α) (acc : List β) :
    l.foldl (fun a p => a ++ [f p]) acc = acc ++ l.map f := by
  induction l generalizing acc with
  | nil => simp
  | cons x xs ih => simp [ih]

/-- With at least one legacy port, `determineListenAddress` is the map of the
ports to loopback addresses. -/
theorem determineListenAddress_ports (o : authenticationOptions) (h : o.ListenPort ≠ []) :
    determineListenAddress o = o.ListenPort.map (fun p => "127.0.0.1:" ++ fmt.formatInt p) := by
  have hlen : o.ListenPort.length ≠ 0 := by
    intro h0
    exact h (List.length_eq_zero.mp h0)
  unfold determineListenAddress
  rw [if_neg hlen, foldl_append_singleton]
  simp

end cmd

/-! ## Grant-option resolution -/

/-- C1: with `GrantType = "auto"`, an empty username gives a successful result
with only `AuthCodeOption` populated, carrying the resolved listen addresses,
the skip-browser flag, the redirect hostname and the extra parameters; a
non-empty username gives a successful result with only `ROPCOption` populated,
carrying the username and the password as given. -/
theorem cmd.grantOptionSet_auto (o : cmd.authenticationOptions) (h : o.GrantType = "auto") :
    (o.Username = "" →
      cmd.grantOptionSet o =
        ({ AuthCodeOption := some
             ⟨cmd.determineListenAddress o, o.SkipOpenBrowser, o.RedirectURLHostname,
               o.AuthRequestExtraParams⟩,
           AuthCodeKeyboardOption := none,
           ROPCOption := none }, none)) ∧
    (o.Username ≠ "" →
      cmd.grantOptionSet o =
        ({ AuthCodeOption := none,
           AuthCodeKeyboardOption := none,
           ROPCOption := some ⟨o.Username, o.Password⟩ }, none)) := by
  constructor
  · intro hu
    simp [cmd.grantOptionSet, authentication.GrantOptionSet.zero, h, hu]
  · intro hu
    simp [cmd.grantOptionSet, authentication.GrantOptionSet.zero, h, hu]

/-- Witness for C1: the defaults (no username) and the test case
`GrantType=auto` with `--username USER --password PASS`. -/
theorem cmd.grantOptionSet_auto_witness :
    cmd.grantOptionSet ⟨"auto", ["127.0.0.1:8000", "127.0.0.1:18000"], [], false, "localhost", [], "", ""⟩ =
        ({ AuthCodeOption := some ⟨["127.0.0.1:8000", "127.0.0.1:18000"], false, "localhost", []⟩,
           AuthCodeKeyboardOption := none,
           ROPCOption := none }, none) ∧
    cmd.grantOptionSet ⟨"auto", ["127.0.0.1:8000", "127.0.0.1:18000"], [10080, 20080], false, "localhost", [], "USER", "PASS"⟩ =
        ({ AuthCodeOption := none,
           AuthCodeKeyboardOption := none,
           ROPCOption := some ⟨"USER", "PASS"⟩ }, none) :=
  ⟨(cmd.grantOptionSet_auto
      ⟨"auto", ["127.0.0.1:8000", "127.0.0.1:18000"], [], false, "localhost", [], "", ""⟩ rfl).1 rfl,
   (cmd.grantOptionSet_auto
      ⟨"auto", ["127.0.0.1:8000", "127.0.0.1:18000"], [10080, 20080], false, "localhost", [], "USER", "PASS"⟩
      rfl).2 (by decide)⟩

/-- C2: with `GrantType = "authcode"`, whatever the username and the password,
the result is successful, `AuthCodeOption` is populated with the resolved
listen addresses, the skip-browser flag, the redirect hostname and the extra
parameters, and the two other variants are empty. -/
theorem cmd.grantOptionSet_authcode (o : cmd.authenticationOptions)
    (h : o.GrantType = "authcode") :
    cmd.grantOptionSet o =
      ({ AuthCodeOption := some
           { BindAddress := cmd.determineListenAddress o,
             SkipOpenBrowser := o.SkipOpenBrowser,
             RedirectURLHostname := o.RedirectURLHostname,
             AuthRequestExtraParams := o.AuthRequestExtraParams },
         AuthCodeKeyboardOption := none,
         ROPCOption := none }, none) := by
  simp [cmd.grantOptionSet, authentication.GrantOptionSet.zero, h]

/-- Witness for C2: the test case `FullOptions` (`--grant-type authcode` with
two legacy ports, a username and a password). -/
theorem cmd.grantOptionSet_authcode_witness :
    cmd.grantOptionSet ⟨"authcode", ["127.0.0.1:8000", "127.0.0.1:18000"], [10080, 20080], true, "localhost", [], "USER", "PASS"⟩ =
      ({ AuthCodeOption := some
           { BindAddress := cmd.determineListenAddress ⟨"authcode", ["127.0.0.1:8000", "127.0.0.1:18000"], [10080, 20080], true, "localhost", [], "USER", "PASS"⟩,
             SkipOpenBrowser := true,
             RedirectURLHostname := "localhost",
             AuthRequestExtraParams := [] },
         AuthCodeKeyboardOption := none,
         ROPCOption := none }, none) :=
  cmd.grantOptionSet_authcode
    ⟨"authcode", ["127.0.0.1:8000", "127.0.0.1:18000"], [10080, 20080], true, "localhost", [], "USER", "PASS"⟩ rfl

/-- C3: with `GrantType = "password"`, also when the username is empty, the
result is successful with only `ROPCOption` populated, and its username and
password are those of the options, unchanged. -/
theorem cmd.grantOptionSet_password (o : cmd.authenticationOptions)
    (h : o.GrantType = "password") :
    cmd.grantOptionSet o =
      ({ AuthCodeOption := none,
         AuthCodeKeyboardOption := none,
         ROPCOption := some { Username := o.Username, Password := o.Password } }, none) := by
  simp [cmd.grantOptionSet, authentication.GrantOptionSet.zero, h]

/-- Witness for C3: `--grant-type password` with an empty username. -/
theorem cmd.grantOptionSet_password_witness :
    cmd.grantOptionSet ⟨"password", ["127.0.0.1:8000"], [10080, 20080], false, "localhost", [], "", "PASS"⟩ =
      ({ AuthCodeOption := none,
         AuthCodeKeyboardOption := none,
         ROPCOption := some { Username := "", Password := "PASS" } }, none) :=
  cmd.grantOptionSet_password
    ⟨"password", ["127.0.0.1:8000"], [10080, 20080], false, "localhost", [], "", "PASS"⟩ rfl

/-- C4: with `GrantType = "authcode-keyboard"`, whatever the username, the
password, the listen addresses and the listen ports, the result is successful
with only `AuthCodeKeyboardOption` populated, and that option is exactly the
extra request parameters of the options. -/
theorem cmd.grantOptionSet_authcode_keyboard (o : cmd.authenticationOptions)
    (h : o.GrantType = "authcode-keyboard") :
    cmd.grantOptionSet o =
      ({ AuthCodeOption := none,
         AuthCodeKeyboardOption := some { AuthRequestExtraParams := o.AuthRequestExtraParams },
         ROPCOption := none }, none) := by
  simp [cmd.grantOptionSet, authentication.GrantOptionSet.zero, h]

/-- Witness for C4: `--grant-type authcode-keyboard` with a username, a
password, legacy ports and one extra parameter. -/
theorem cmd.grantOptionSet_authcode_keyboard_witness :
    cmd.grantOptionSet ⟨"authcode-keyboard", ["127.0.0.1:8000"], [10080], true, "localhost", [("ttl", "86400")], "USER", "PASS"⟩ =
      ({ AuthCodeOption := none,
         AuthCodeKeyboardOption := some { AuthRequestExtraParams := [("ttl", "86400")] },
         ROPCOption := none }, none) :=
  cmd.grantOptionSet_authcode_keyboard
    ⟨"authcode-keyboard", ["127.0.0.1:8000"], [10080], true, "localhost", [("ttl", "86400")], "USER", "PASS"⟩ rfl

/-- C5: `grantOptionSet` returns an error exactly when the grant type is none
of the strings `auto`, `authcode`, `authcode-keyboard`, `password`; the
comparison is exact, so the empty string and other spellings of the four names
are rejected, and `auto` never fails, whatever the username. -/
theorem cmd.grantOptionSet_error_iff :
    (∀ o : cmd.authenticationOptions,
      (cmd.grantOptionSet o).2 ≠ none ↔
        ¬ (o.GrantType = "auto" ∨ o.GrantType = "authcode" ∨
            o.GrantType = "authcode-keyboard" ∨ o.GrantType = "password")) ∧
    (∀ (g : String) (la : List String) (lp : List Int) (sb : Bool) (rh : String)
        (ep : List (String × String)) (u pw : String),
      g ∈ ["", "Auto", "AUTO", "AuthCode", "authcode_keyboard", "Password", " auto"] →
        (cmd.grantOptionSet ⟨g, la, lp, sb, rh, ep, u, pw⟩).2 ≠ none) ∧
    (∀ (la : List String) (lp : List Int) (sb : Bool) (rh : String)
        (ep : List (String × String)) (u pw : String),
      (cmd.grantOptionSet ⟨"auto", la, lp, sb, rh, ep, u, pw⟩).2 = none) := by
  have key : ∀ o : cmd.authenticationOptions,
      (cmd.grantOptionSet o).2 ≠ none ↔
        ¬ (o.GrantType = "auto" ∨ o.GrantType = "authcode" ∨
            o.GrantType = "authcode-keyboard" ∨ o.GrantType = "password") := by
    intro o
    unfold cmd.grantOptionSet
    by_cases h1 : o.GrantType = "authcode"
    · simp [h1]
    · by_cases h2 : o.GrantType = "authcode-keyboard"
      · simp [h2]
      · by_cases h3 : o.GrantType = "password"
        · simp [h3]
        · by_cases h4 : o.GrantType = "auto"
          · by_cases hu : o.Username = "" <;> simp [h4, hu]
          · simp [h1, h2, h3, h4]
  refine ⟨key, ?_, ?_⟩
  · intro g la lp sb rh ep u pw hg
    rw [key]
    simp only [List.mem_cons, List.mem_singleton, List.not_mem_nil, or_false] at hg
    rcases hg with h | h | h | h | h | h | h <;> subst h <;> simp
  · intro la lp sb rh ep u pw
    have h := key ⟨"auto", la, lp, sb, rh, ep, u, pw⟩
    by_contra hne
    exact (h.mp hne) (Or.inl rfl)

/-- Witness for C5: the spellings `Auto` and the empty string are rejected. -/
theorem cmd.grantOptionSet_error_iff_witness :
    (cmd.grantOptionSet ⟨"Auto", [], [], false, "localhost", [], "", ""⟩).2 ≠ none ∧
    (cmd.grantOptionSet ⟨"", [], [], false, "localhost", [], "USER", "PASS"⟩).2 ≠ none :=
  ⟨cmd.grantOptionSet_error_iff.2.1 "Auto" [] [] false "localhost" [] "" "" (by decide),
   cmd.grantOptionSet_error_iff.2.1 "" [] [] false "localhost" [] "USER" "PASS" (by decide)⟩

/-- C6: when `grantOptionSet` succeeds, exactly one of the three variants of
the returned `GrantOptionSet` is populated; when it fails, none is. -/
theorem cmd.grantOptionSet_populated (o : cmd.authenticationOptions) :
    ((cmd.grantOptionSet o).2 = none → (cmd.grantOptionSet o).1.populated = 1) ∧
    ((cmd.grantOptionSet o).2 ≠ none → (cmd.grantOptionSet o).1.populated = 0) := by
  unfold cmd.grantOptionSet
  by_cases h1 : o.GrantType = "authcode" ∨ (o.GrantType = "auto" ∧ o.Username = "")
  · simp [h1, authentication.GrantOptionSet.populated, authentication.GrantOptionSet.zero]
  · by_cases h2 : o.GrantType = "authcode-keyboard"
    · simp [h2, authentication.GrantOptionSet.populated, authentication.GrantOptionSet.zero]
    · by_cases h3 : o.GrantType = "password" ∨ (o.GrantType = "auto" ∧ o.Username ≠ "")
      · simp only [if_neg h1, if_neg h2, if_pos h3]
        simp [authentication.GrantOptionSet.populated, authentication.GrantOptionSet.zero]
      · simp only [if_neg h1, if_neg h2, if_neg h3]
        simp [authentication.GrantOptionSet.populated, authentication.GrantOptionSet.zero]

/-- Witness for C6: one successful resolution (`password`) and one failing
resolution (`bogus`). -/
theorem cmd.grantOptionSet_populated_witness :
    (cmd.grantOptionSet ⟨"password", [], [], false, "localhost", [], "USER", "PASS"⟩).1.populated = 1 ∧
    (cmd.grantOptionSet ⟨"bogus", [], [], false, "localhost", [], "USER", "PASS"⟩).1.populated = 0 :=
  ⟨(cmd.grantOptionSet_populated ⟨"password", [], [], false, "localhost", [], "USER", "PASS"⟩).1
      (by decide),
   (cmd.grantOptionSet_populated ⟨"bogus", [], [], false, "localhost", [], "USER", "PASS"⟩).2
      (by decide)⟩

/-! ## Listen-address resolution -/

/-- C7: when the legacy port list is the non-empty list `p1, ..., pn`,
`determineListenAddress` returns exactly `n` strings, the `i`-th being
`127.0.0.1:` followed by the decimal rendering of `pi`, in the order of the
ports; the result is the same for any options with the same ports, so the
listen addresses play no part. -/
theorem cmd.determineListenAddress_legacy_ports (o : cmd.authenticationOptions)
    (h : o.ListenPort ≠ []) :
    cmd.determineListenAddress o
        = o.ListenPort.map (fun p => "127.0.0.1:" ++ fmt.formatInt p) ∧
    (cmd.determineListenAddress o).length = o.ListenPort.length ∧
    (∀ (i : Nat) (hi : i < o.ListenPort.length),
      (cmd.determineListenAddress o)[i]?
        = some ("127.0.0.1:" ++ fmt.formatInt (o.ListenPort.get ⟨i, hi⟩))) ∧
    (∀ o2 : cmd.authenticationOptions, o2.ListenPort = o.ListenPort →
      cmd.determineListenAddress o2 = cmd.determineListenAddress o) := by
  have hmap := cmd.determineListenAddress_ports o h
  refine ⟨hmap, ?_, ?_, ?_⟩
  · rw [hmap, List.length_map]
  · intro i hi
    rw [hmap]
    simp [List.getElem?_map, List.getElem?_eq_getElem hi]
  · intro o2 h2
    rw [hmap, cmd.determineListenAddress_ports o2 (by rw [h2]; exact h), h2]

/-- Witness for C7: the legacy ports `10080, 20080` of the test case
`FullOptions`. -/
theorem cmd.determineListenAddress_legacy_ports_witness :
    cmd.determineListenAddress
        ⟨"authcode", ["127.0.0.1:8000", "127.0.0.1:18000"], [10080, 20080], true, "localhost", [], "USER", "PASS"⟩
      = ["127.0.0.1:10080", "127.0.0.1:20080"] :=
  (cmd.determineListenAddress_legacy_ports
    ⟨"authcode", ["127.0.0.1:8000", "127.0.0.1:18000"], [10080, 20080], true, "localhost", [], "USER", "PASS"⟩
    (by decide)).1.trans (by decide)

/-- C8: when the legacy port list is empty, `determineListenAddress` returns
the listen addresses unchanged (same elements, same order, same length). -/
theorem cmd.determineListenAddress_no_ports (o : cmd.authenticationOptions)
    (h : o.ListenPort = []) :
    cmd.determineListenAddress o = o.ListenAddress := by
  unfold cmd.determineListenAddress
  simp [h]

/-- Witness for C8: the default listen addresses and no legacy port. -/
theorem cmd.determineListenAddress_no_ports_witness :
    cmd.determineListenAddress
        ⟨"auto", ["127.0.0.1:8000", "127.0.0.1:18000"], [], false, "localhost", [], "", ""⟩
      = ["127.0.0.1:8000", "127.0.0.1:18000"] :=
  cmd.determineListenAddress_no_ports
    ⟨"auto", ["127.0.0.1:8000", "127.0.0.1:18000"], [], false, "localhost", [], "", ""⟩ rfl

/-! ## State and nonce tokens -/

/-- C9: `NewState` and `NewNonce` return an error exactly when the read of 32
bytes from the random source fails, and then the returned string is empty;
when the read delivers the bytes `b`, they return `base64URLEncode b` and no
error. -/
theorem oidc.NewState_NewNonce_error_iff (rd : oidc.Reader) :
    (((oidc.NewState rd).2 ≠ none ↔ ∃ e, rd.readFull 32 = Except.error e) ∧
      ((oidc.NewState rd).2 ≠ none → (oidc.NewState rd).1 = "") ∧
      (∀ b : List Byte, rd.readFull 32 = Except.ok b →
        oidc.NewState rd = (oidc.base64URLEncode b, none))) ∧
    (((oidc.NewNonce rd).2 ≠ none ↔ ∃ e, rd.readFull 32 = Except.error e) ∧
      ((oidc.NewNonce rd).2 ≠ none → (oidc.NewNonce rd).1 = "") ∧
      (∀ b : List Byte, rd.readFull 32 = Except.ok b →
        oidc.NewNonce rd = (oidc.base64URLEncode b, none))) := by
  unfold oidc.NewState oidc.NewNonce oidc.random32
  cases hr : rd.readFull 32 with
  | error e => simp
  | ok b => simp

/-- Witness for C9: a random source whose read fails, and one delivering 32
bytes. -/
theorem oidc.NewState_NewNonce_error_iff_witness :
    (oidc.NewState ⟨fun _ => Except.error "EOF"⟩).1 = "" ∧
    oidc.NewNonce ⟨fun n => Except.ok (List.replicate n 251)⟩
      = (oidc.base64URLEncode (List.replicate 32 251), none) :=
  ⟨(oidc.NewState_NewNonce_error_iff ⟨fun _ => Except.error "EOF"⟩).1.2.1 (by decide),
   (oidc.NewState_NewNonce_error_iff ⟨fun n => Except.ok (List.replicate n 251)⟩).2.2.2
      (List.replicate 32 251) rfl⟩

/-- C10: for every sequence `b` of 32 bytes, `base64URLEncode b` has exactly 43
characters, each from the URL-safe alphabet `A-Z`, `a-z`, `0-9`, `-`, `_`, and
contains none of `=`, `+`, `/`; every successful `NewState` or `NewNonce`
result built from such bytes is that string. -/
theorem oidc.base64URLEncode_32 (b : List Byte) (hb : b.length = 32) :
    (oidc.base64URLEncode b).length = 43 ∧
    (∀ c ∈ (oidc.base64URLEncode b).data, base64.isURLSafeChar c = true) ∧
    ('=' ∉ (oidc.base64URLEncode b).data ∧ '+' ∉ (oidc.base64URLEncode b).data ∧
      '/' ∉ (oidc.base64URLEncode b).data) ∧
    (∀ rd : oidc.Reader, rd.readFull 32 = Except.ok b →
      (oidc.NewState rd).1 = oidc.base64URLEncode b ∧
      (oidc.NewNonce rd).1 = oidc.base64URLEncode b) := by
  have hsafe : ∀ c ∈ (oidc.base64URLEncode b).data, base64.isURLSafeChar c = true := by
    intro c hc
    exact base64.Encode_isURLSafeChar b.length b (le_refl _) c hc
  have hnot : ∀ c : Char, base64.isURLSafeChar c = false → c ∉ (oidc.base64URLEncode b).data := by
    intro c hc hmem
    rw [hsafe c hmem] at hc
    exact Bool.noConfusion hc
  refine ⟨?_, hsafe, ⟨hnot _ (by decide), hnot _ (by decide), hnot _ (by decide)⟩, ?_⟩
  · have hlen := base64.Encode_length (base64.URLEncoding.WithPadding base64.NoPadding) rfl
      b.length b (le_refl _)
    show ((base64.URLEncoding.WithPadding base64.NoPadding).Encode b).length = 43
    rw [hlen, hb]
    rfl
  · intro rd hrd
    simp [oidc.NewState, oidc.NewNonce, oidc.random32, hrd]

/-- Witness for C10: the 32 bytes `0xFB, ..., 0xFB`, whose encoding uses both
`-` and `_`. -/
theorem oidc.base64URLEncode_32_witness :
    (oidc.base64URLEncode (List.replicate 32 251)).length = 43 ∧
    oidc.base64URLEncode (List.replicate 32 251)
      = "-_v7-_v7-_v7-_v7-_v7-_v7-_v7-_v7-_v7-_v7-_s" :=
  ⟨(oidc.base64URLEncode_32 (List.replicate 32 251) (by decide)).1, by decide⟩

/-! ## Further properties of the grant-option resolution -/

/-- C11: two option sets that agree on the grant type, the username and the
password, with grant type `password`, or `auto` and a non-empty username, get
the same result from `grantOptionSet`: the `ROPCOption` with that username and
password and no error, whatever the listen addresses, the listen ports, the
skip-browser flag, the redirect hostname and the extra parameters are. -/
theorem cmd.grantOptionSet_ropc_independent (o1 o2 : cmd.authenticationOptions)
    (hg : o1.GrantType = o2.GrantType) (hu : o1.Username = o2.Username)
    (hp : o1.Password = o2.Password)
    (h : o1.GrantType = "password" ∨ (o1.GrantType = "auto" ∧ o1.Username ≠ "")) :
    cmd.grantOptionSet o1 = cmd.grantOptionSet o2 ∧
    cmd.grantOptionSet o1 =
      ({ AuthCodeOption := none,
         AuthCodeKeyboardOption := none,
         ROPCOption := some { Username := o1.Username, Password := o1.Password } }, none) ∧
    (cmd.grantOptionSet o1).2 = none ∧ (cmd.grantOptionSet o2).2 = none := by
  have key : ∀ o : cmd.authenticationOptions,
      (o.GrantType = "password" ∨ (o.GrantType = "auto" ∧ o.Username ≠ "")) →
      cmd.grantOptionSet o =
        ({ AuthCodeOption := none,
           AuthCodeKeyboardOption := none,
           ROPCOption := some { Username := o.Username, Password := o.Password } }, none) := by
    intro o ho
    rcases ho with hpw | ⟨ha, hne⟩
    · simp [cmd.grantOptionSet, authentication.GrantOptionSet.zero, hpw]
    · simp [cmd.grantOptionSet, authentication.GrantOptionSet.zero, ha, hne]
  have h2 : o2.GrantType = "password" ∨ (o2.GrantType = "auto" ∧ o2.Username ≠ "") := by
    rw [← hg, ← hu]
    exact h
  have e1 := key o1 h
  have e2 := key o2 h2
  refine ⟨?_, e1, ?_, ?_⟩
  · rw [e1, e2, hu, hp]
  · rw [e1]
  · rw [e2]

/-- Witness for C11: the test case `GrantType=auto` with two legacy ports,
against the same credentials with other listen and browser settings. -/
theorem cmd.grantOptionSet_ropc_independent_witness :
    cmd.grantOptionSet ⟨"auto", ["127.0.0.1:8000", "127.0.0.1:18000"], [10080, 20080], false, "localhost", [], "USER", "PASS"⟩
      = cmd.grantOptionSet ⟨"auto", [], [], true, "example.com", [("ttl", "86400")], "USER", "PASS"⟩ :=
  (cmd.grantOptionSet_ropc_independent
    ⟨"auto", ["127.0.0.1:8000", "127.0.0.1:18000"], [10080, 20080], false, "localhost", [], "USER", "PASS"⟩
    ⟨"auto", [], [], true, "example.com", [("ttl", "86400")], "USER", "PASS"⟩
    rfl rfl rfl (Or.inr ⟨rfl, by decide⟩)).1

/-- C12: whenever `grantOptionSet` fails, the error message is the text
`grant-type must be one of (auto|authcode|authcode-keyboard|password)`: the
four valid grant types in that order, joined by a vertical bar. -/
theorem cmd.grantOptionSet_error_message (o : cmd.authenticationOptions)
    (h : (cmd.grantOptionSet o).2 ≠ none) :
    (cmd.grantOptionSet o).2
      = some "grant-type must be one of (auto|authcode|authcode-keyboard|password)" ∧
    cmd.allGrantType = "auto|authcode|authcode-keyboard|password" := by
  have hmsg : xerrors.Errorf "grant-type must be one of (" cmd.allGrantType ")"
      = "grant-type must be one of (auto|authcode|authcode-keyboard|password)" := by decide
  refine ⟨?_, by decide⟩
  unfold cmd.grantOptionSet at h ⊢
  by_cases h1 : o.GrantType = "authcode" ∨ (o.GrantType = "auto" ∧ o.Username = "")
  · simp [h1] at h
  · by_cases h2 : o.GrantType = "authcode-keyboard"
    · simp [h2] at h
    · by_cases h3 : o.GrantType = "password" ∨ (o.GrantType = "auto" ∧ o.Username ≠ "")
      · simp only [if_neg h1, if_neg h2, if_pos h3] at h
        exact absurd rfl h
      · simp only [if_neg h1, if_neg h2, if_neg h3]
        rw [hmsg]

/-- Witness for C12: the grant type `bogus`. -/
theorem cmd.grantOptionSet_error_message_witness :
    (cmd.grantOptionSet ⟨"bogus", ["127.0.0.1:8000"], [], false, "localhost", [], "", ""⟩).2
      = some "grant-type must be one of (auto|authcode|authcode-keyboard|password)" :=
  (cmd.grantOptionSet_error_message
    ⟨"bogus", ["127.0.0.1:8000"], [], false, "localhost", [], "", ""⟩ (by decide)).1

/-- C13: when the listen addresses are non-empty and `grantOptionSet` yields
an `AuthCodeOption`, the bind addresses of that option are non-empty, whatever
the legacy ports are. -/
theorem cmd.grantOptionSet_bindAddress_nonempty (o : cmd.authenticationOptions)
    (a : authentication.AuthCodeOption) (hla : o.ListenAddress ≠ [])
    (hs : (cmd.grantOptionSet o).1.AuthCodeOption = some a) :
    a.BindAddress ≠ [] ∧ a.BindAddress = cmd.determineListenAddress o := by
  have hbind : a.BindAddress = cmd.determineListenAddress o := by
    unfold cmd.grantOptionSet at hs
    by_cases h1 : o.GrantType = "authcode" ∨ (o.GrantType = "auto" ∧ o.Username = "")
    · simp only [if_pos h1, Option.some.injEq] at hs
      rw [← hs]
    · by_cases h2 : o.GrantType = "authcode-keyboard"
      · simp [if_neg h1, if_pos h2, authentication.GrantOptionSet.zero] at hs
      · by_cases h3 : o.GrantType = "password" ∨ (o.GrantType = "auto" ∧ o.Username ≠ "")
        · simp [if_neg h1, if_neg h2, if_pos h3, authentication.GrantOptionSet.zero] at hs
        · simp [if_neg h1, if_neg h2, if_neg h3, authentication.GrantOptionSet.zero] at hs
  refine ⟨?_, hbind⟩
  rw [hbind]
  by_cases hp : o.ListenPort = []
  · unfold cmd.determineListenAddress
    simp [hp, hla]
  · rw [cmd.determineListenAddress_ports o hp]
    simp [hp]

/-- Witness for C13: the default listen addresses with two legacy ports and
grant type `authcode`. -/
theorem cmd.grantOptionSet_bindAddress_nonempty_witness :
    (⟨["127.0.0.1:10080", "127.0.0.1:20080"], true, "localhost", []⟩ :
      authentication.AuthCodeOption).BindAddress ≠ [] :=
  (cmd.grantOptionSet_bindAddress_nonempty
    ⟨"authcode", ["127.0.0.1:8000", "127.0.0.1:18000"], [10080, 20080], true, "localhost", [], "USER", "PASS"⟩
    ⟨["127.0.0.1:10080", "127.0.0.1:20080"], true, "localhost", []⟩
    (by decide) (by decide)).1

/-- Counterexample for C14: the options `--grant-type password` with neither
username nor password resolve, without error, to a `ROPCOption` whose username
and password are both empty; so it is not true that every populated
`ROPCOption` has a non-empty username and a non-empty password. -/
theorem cmd.grantOptionSet_ropc_nonempty_counterexample :
    cmd.grantOptionSet ⟨"password", ["127.0.0.1:8000", "127.0.0.1:18000"], [], false, "localhost", [], "", ""⟩
      = ({ AuthCodeOption := none,
           AuthCodeKeyboardOption := none,
           ROPCOption := some { Username := "", Password := "" } }, none) ∧
    ¬ (∀ (o : cmd.authenticationOptions) (r : authentication.ROPCOption),
        (cmd.grantOptionSet o).2 = none → (cmd.grantOptionSet o).1.ROPCOption = some r →
          r.Username ≠ "" ∧ r.Password ≠ "") := by
  refine ⟨by decide, ?_⟩
  intro hall
  have h := hall
    ⟨"password", ["127.0.0.1:8000", "127.0.0.1:18000"], [], false, "localhost", [], "", ""⟩
    ⟨"", ""⟩ (by decide) (by decide)
  exact h.1 rfl

/-- C14, amended: when `grantOptionSet` yields a `ROPCOption`, it does so
without error, the grant type is `password` or `auto`, and the username and
the password of the option are those of the options exactly as given, with no
check that they are non-empty; the username is non-empty when the grant type
is `auto`. -/
theorem cmd.grantOptionSet_ropc_as_given (o : cmd.authenticationOptions)
    (r : authentication.ROPCOption)
    (hs : (cmd.grantOptionSet o).1.ROPCOption = some r) :
    (cmd.grantOptionSet o).2 = none ∧
    r.Username = o.Username ∧ r.Password = o.Password ∧
    (o.GrantType = "password" ∨ o.GrantType = "auto") ∧
    (o.GrantType = "auto" → r.Username ≠ "") := by
  unfold cmd.grantOptionSet at hs ⊢
  by_cases h1 : o.GrantType = "authcode" ∨ (o.GrantType = "auto" ∧ o.Username = "")
  · simp [if_pos h1, authentication.GrantOptionSet.zero] at hs
  · by_cases h2 : o.GrantType = "authcode-keyboard"
    · simp [if_neg h1, if_pos h2, authentication.GrantOptionSet.zero] at hs
    · by_cases h3 : o.GrantType = "password" ∨ (o.GrantType = "auto" ∧ o.Username ≠ "")
      · simp only [if_neg h1, if_neg h2, if_pos h3, Option.some.injEq] at hs ⊢
        subst hs
        refine ⟨trivial, rfl, rfl, ?_, ?_⟩
        · rcases h3 with h3 | h3
          · exact Or.inl h3
          · exact Or.inr h3.1
        · intro ha
          rcases h3 with h3 | h3
          · rw [ha] at h3
            exact absurd h3 (by decide)
          · exact h3.2
      · simp [if_neg h1, if_neg h2, if_neg h3, authentication.GrantOptionSet.zero] at hs

/-- Witness for C14, amended: grant type `auto` with a username and an empty
password. -/
theorem cmd.grantOptionSet_ropc_as_given_witness :
    (cmd.grantOptionSet ⟨"auto", ["127.0.0.1:8000"], [], false, "localhost", [], "USER", ""⟩).2 = none ∧
    (⟨"USER", ""⟩ : authentication.ROPCOption).Password = "" :=
  ⟨(cmd.grantOptionSet_ropc_as_given
      ⟨"auto", ["127.0.0.1:8000"], [], false, "localhost", [], "USER", ""⟩
      ⟨"USER", ""⟩ (by decide)).1,
   (cmd.grantOptionSet_ropc_as_given
      ⟨"auto", ["127.0.0.1:8000"], [], false, "localhost", [], "USER", ""⟩
      ⟨"USER", ""⟩ (by decide)).2.2.1⟩

/-- C17: with grant type `auto`, `grantOptionSet` gives the result it gives
for the same options with grant type `authcode` when the username is empty,
and the result it gives for the same options with grant type `password` when
the username is non-empty; it never populates `AuthCodeKeyboardOption`. -/
theorem cmd.grantOptionSet_auto_dispatch (o : cmd.authenticationOptions)
    (h : o.GrantType = "auto") :
    (o.Username = "" →
      cmd.grantOptionSet o = cmd.grantOptionSet { o with GrantType := "authcode" }) ∧
    (o.Username ≠ "" →
      cmd.grantOptionSet o = cmd.grantOptionSet { o with GrantType := "password" }) ∧
    (cmd.grantOptionSet o).1.AuthCodeKeyboardOption = none := by
  refine ⟨?_, ?_, ?_⟩
  · intro hu
    simp [cmd.grantOptionSet, cmd.determineListenAddress, h, hu]
  · intro hu
    simp [cmd.grantOptionSet, h, hu]
  · by_cases hu : o.Username = ""
    · simp [cmd.grantOptionSet, authentication.GrantOptionSet.zero, h, hu]
    · simp [cmd.grantOptionSet, authentication.GrantOptionSet.zero, h, hu]

/-- Witness for C17: grant type `auto` without a username against `authcode`,
and with a username against `password`. -/
theorem cmd.grantOptionSet_auto_dispatch_witness :
    cmd.grantOptionSet ⟨"auto", ["127.0.0.1:8000"], [10080], true, "localhost", [], "", "PASS"⟩
      = cmd.grantOptionSet ⟨"authcode", ["127.0.0.1:8000"], [10080], true, "localhost", [], "", "PASS"⟩ ∧
    cmd.grantOptionSet ⟨"auto", ["127.0.0.1:8000"], [10080], true, "localhost", [], "USER", "PASS"⟩
      = cmd.grantOptionSet ⟨"password", ["127.0.0.1:8000"], [10080], true, "localhost", [], "USER", "PASS"⟩ :=
  ⟨(cmd.grantOptionSet_auto_dispatch
      ⟨"auto", ["127.0.0.1:8000"], [10080], true, "localhost", [], "", "PASS"⟩ rfl).1 rfl,
   (cmd.grantOptionSet_auto_dispatch
      ⟨"auto", ["127.0.0.1:8000"], [10080], true, "localhost", [], "USER", "PASS"⟩ rfl).2.1
      (by decide)⟩

/-! ## Injectivity of the token encoding -/

namespace base64

/-- Position of each entry of the URL-safe table: the table has no repeated
character. -/
theorem tbl_indexOf (i : Nat) (hi : i < 64) :
    encodeURL.data.indexOf ((URLEncoding.WithPadding NoPadding).tbl i) = i := by
  have h : ∀ j : Fin 64,
      encodeURL.data.indexOf ((URLEncoding.WithPadding NoPadding).tbl j.val) = j.val := by
    decide
  exact h ⟨i, hi⟩

/-- The table lookup of the URL-safe encoding is injective on the indices
below 64. -/
theorem tbl_inj (i j : Nat) (hi : i < 64) (hj : j < 64)
    (h : (URLEncoding.WithPadding NoPadding).tbl i = (URLEncoding.WithPadding NoPadding).tbl j) :
    i = j := by
  rw [← tbl_indexOf i hi, ← tbl_indexOf j hj, h]

/-- Equal table entries at masked indices come from equal sextets. -/
theorem tbl_mask_inj (x y k : Nat)
    (h : (URLEncoding.WithPadding NoPadding).tbl ((x >>> k) &&& 0x3F)
          = (URLEncoding.WithPadding NoPadding).tbl ((y >>> k) &&& 0x3F)) :
    x / 2 ^ k % 64 = y / 2 ^ k % 64 := by
  have hxy := tbl_inj _ _ (and_0x3F_lt _) (and_0x3F_lt _) h
  have hm : ∀ z : Nat, z &&& 0x3F = z % 64 := fun z => Nat.and_pow_two_sub_one_eq_mod z 6
  rw [hm, hm, Nat.shiftRight_eq_div_pow, Nat.shiftRight_eq_div_pow] at hxy
  exact hxy

/-- The 16-bit-aligned combination of two bytes, in arithmetic form. -/
theorem val2_eq (a b : Byte) :
    (a.val <<< 16) ||| (b.val <<< 8) = a.val * 65536 + b.val * 256 := by
  have hb : b.val * 256 < 2 ^ 16 := by
    have := b.isLt
    omega
  have h := Nat.mul_add_lt_is_or hb a.val
  rw [Nat.shiftLeft_eq, Nat.shiftLeft_eq]
  norm_num at h ⊢
  rw [Nat.mul_comm a.val 65536, ← h]

/-- The 24-bit group of three bytes, in arithmetic form. -/
theorem val3_eq (a b c : Byte) :
    (a.val <<< 16) ||| (b.val <<< 8) ||| c.val = a.val * 65536 + b.val * 256 + c.val := by
  have hc : c.val < 2 ^ 8 := by
    have := c.isLt
    omega
  have h := Nat.mul_add_lt_is_or hc (a.val * 256 + b.val)
  rw [val2_eq]
  norm_num at h
  have e : a.val * 65536 + b.val * 256 = 256 * (a.val * 256 + b.val) := by omega
  rw [e, ← h]

end base64

namespace base64

/-- The four characters of a full group determine its three bytes. -/
theorem group3_inj (a b c a2 b2 c2 : Byte)
    (h18 : (a.val * 65536 + b.val * 256 + c.val) / 2 ^ 18 % 64
            = (a2.val * 65536 + b2.val * 256 + c2.val) / 2 ^ 18 % 64)
    (h12 : (a.val * 65536 + b.val * 256 + c.val) / 2 ^ 12 % 64
            = (a2.val * 65536 + b2.val * 256 + c2.val) / 2 ^ 12 % 64)
    (h6 : (a.val * 65536 + b.val * 256 + c.val) / 2 ^ 6 % 64
            = (a2.val * 65536 + b2.val * 256 + c2.val) / 2 ^ 6 % 64)
    (h0 : (a.val * 65536 + b.val * 256 + c.val) / 2 ^ 0 % 64
            = (a2.val * 65536 + b2.val * 256 + c2.val) / 2 ^ 0 % 64) :
    a = a2 ∧ b = b2 ∧ c = c2 := by
  have ha := a.isLt
  have hb := b.isLt
  have hc := c.isLt
  have ha2 := a2.isLt
  have hb2 := b2.isLt
  have hc2 := c2.isLt
  norm_num at h18 h12 h6 h0
  refine ⟨Fin.ext ?_, Fin.ext ?_, Fin.ext ?_⟩ <;> omega

/-- The three characters of a two-byte remainder determine its bytes. -/
theorem group2_inj (a b a2 b2 : Byte)
    (h18 : (a.val * 65536 + b.val * 256) / 2 ^ 18 % 64
            = (a2.val * 65536 + b2.val * 256) / 2 ^ 18 % 64)
    (h12 : (a.val * 65536 + b.val * 256) / 2 ^ 12 % 64
            = (a2.val * 65536 + b2.val * 256) / 2 ^ 12 % 64)
    (h6 : (a.val * 65536 + b.val * 256) / 2 ^ 6 % 64
            = (a2.val * 65536 + b2.val * 256) / 2 ^ 6 % 64) :
    a = a2 ∧ b = b2 := by
  have ha := a.isLt
  have hb := b.isLt
  have ha2 := a2.isLt
  have hb2 := b2.isLt
  norm_num at h18 h12 h6
  refine ⟨Fin.ext ?_, Fin.ext ?_⟩ <;> omega

/-- The two characters of a one-byte remainder determine the byte. -/
theorem group1_inj (a a2 : Byte)
    (h18 : (a.val * 65536) / 2 ^ 18 % 64 = (a2.val * 65536) / 2 ^ 18 % 64)
    (h12 : (a.val * 65536) / 2 ^ 12 % 64 = (a2.val * 65536) / 2 ^ 12 % 64) :
    a = a2 := by
  have ha := a.isLt
  have ha2 := a2.isLt
  norm_num at h18 h12
  exact Fin.ext (by omega)

/-- On byte sequences of equal length, `Encode` for the unpadded URL-safe
encoding is injective. -/
theorem Encode_inj (n : Nat) :
    ∀ s t : List Byte, s.length ≤ n → s.length = t.length →
      (URLEncoding.WithPadding NoPadding).Encode s = (URLEncoding.WithPadding NoPadding).Encode t →
      s = t := by
  induction n using Nat.strong_induction_on with
  | _ n ih =>
    intro s t hn hlen henc
    match s, t, hn, hlen, henc with
    | [], [], _, _, _ => rfl
    | [], _ :: _, _, hlen, _ => simp at hlen
    | [a], [a2], _, _, henc =>
      simp only [Encoding.Encode, rawURL_eq, List.append_nil, List.cons.injEq, and_true] at henc
      have h18 := tbl_mask_inj _ _ 18 henc.1
      have h12 := tbl_mask_inj _ _ 12 henc.2
      rw [Nat.shiftLeft_eq, Nat.shiftLeft_eq] at h18 h12
      rw [group1_inj a a2 h18 h12]
    | [a, b], [a2, b2], _, _, henc =>
      simp only [Encoding.Encode, rawURL_eq, List.append_nil, List.cons.injEq, and_true] at henc
      have h18 := tbl_mask_inj _ _ 18 henc.1
      have h12 := tbl_mask_inj _ _ 12 henc.2.1
      have h6 := tbl_mask_inj _ _ 6 henc.2.2
      rw [val2_eq, val2_eq] at h18 h12 h6
      obtain ⟨e1, e2⟩ := group2_inj a b a2 b2 h18 h12 h6
      rw [e1, e2]
    | a :: b :: c :: rest, a2 :: b2 :: c2 :: rest2, hn, hlen, henc =>
      simp only [Encoding.Encode, List.cons.injEq] at henc
      obtain ⟨k18, k12, k6, k0, hrest⟩ := henc
      have h18 := tbl_mask_inj _ _ 18 k18
      have h12 := tbl_mask_inj _ _ 12 k12
      have h6 := tbl_mask_inj _ _ 6 k6
      have h0 := tbl_mask_inj _ _ 0 (by simpa using k0)
      rw [val3_eq, val3_eq] at h18 h12 h6 h0
      obtain ⟨e1, e2, e3⟩ := group3_inj a b c a2 b2 c2 h18 h12 h6 h0
      have hl : rest.length < n := by
        simp only [List.length_cons] at hn
        omega
      have hlen2 : rest.length = rest2.length := by
        simp only [List.length_cons] at hlen
        omega
      rw [e1, e2, e3, ih rest.length hl rest rest2 (le_refl _) hlen2 hrest]
    | [_], [], _, hlen, _ => simp at hlen
    | [_], _ :: _ :: _, _, hlen, _ => simp at hlen
    | [_, _], [], _, hlen, _ => simp at hlen
    | [_, _], [_], _, hlen, _ => simp at hlen
    | [_, _], _ :: _ :: _ :: _, _, hlen, _ => simp at hlen
    | _ :: _ :: _ :: _, [], _, hlen, _ => simp at hlen
    | _ :: _ :: _ :: _, [_], _, hlen, _ => simp at hlen
    | _ :: _ :: _ :: _, [_, _], _, hlen, _ => simp at hlen

end base64

/-- C16: `base64URLEncode` is injective on sequences of 32 bytes: two such
sequences with the same encoding are equal; hence two tokens returned by
`NewState` or `NewNonce` for reads of 32 bytes are equal only if the bytes
read are equal. -/
theorem oidc.base64URLEncode_injective_32 (b1 b2 : List Byte)
    (h1 : b1.length = 32) (h2 : b2.length = 32) :
    (oidc.base64URLEncode b1 = oidc.base64URLEncode b2 → b1 = b2) ∧
    (∀ rd1 rd2 : oidc.Reader,
      rd1.readFull 32 = Except.ok b1 → rd2.readFull 32 = Except.ok b2 →
        ((oidc.NewState rd1).1 = (oidc.NewState rd2).1 → b1 = b2) ∧
        ((oidc.NewNonce rd1).1 = (oidc.NewNonce rd2).1 → b1 = b2) ∧
        ((oidc.NewState rd1).1 = (oidc.NewNonce rd2).1 → b1 = b2)) := by
  have hinj : oidc.base64URLEncode b1 = oidc.base64URLEncode b2 → b1 = b2 := by
    intro h
    have hdata : (base64.URLEncoding.WithPadding base64.NoPadding).Encode b1
        = (base64.URLEncoding.WithPadding base64.NoPadding).Encode b2 :=
      congrArg String.data h
    exact base64.Encode_inj b1.length b1 b2 (le_refl _) (by rw [h1, h2]) hdata
  refine ⟨hinj, ?_⟩
  intro rd1 rd2 hr1 hr2
  simp only [oidc.NewState, oidc.NewNonce, oidc.random32, hr1, hr2]
  exact ⟨hinj, hinj, hinj⟩

/-- Witness for C16: the 32 bytes `0x00, ..., 0x00` and the 32 bytes
`0x00, ..., 0x00, 0x01` have different encodings. -/
theorem oidc.base64URLEncode_injective_32_witness :
    oidc.base64URLEncode (List.replicate 32 0)
      ≠ oidc.base64URLEncode (List.replicate 31 0 ++ [1]) :=
  fun h =>
    absurd
      ((oidc.base64URLEncode_injective_32 (List.replicate 32 0) (List.replicate 31 0 ++ [1])
        (by decide) (by decide)).1 h)
      (by decide)
